import Mathlib

/-!
Shallow embedding of `rsraw/src/raw.rs`: the `RawImage` wrapper around the
native libraw decoder.  The engine (libraw) is an external collaborator, so
its responses — the status codes returned by each engine call and the
buffers the engine fills — are carried as fields of the modelled
`libraw_data_t` state.  Engine calls made by the wrapper are recorded in an
event trace so that resource acquisition/release and call order can be
stated.
-/

namespace Rsraw

/-- Error taxonomy.  Modelled from the spec: the crate's `err.rs`
(`Error`, `Error::check`) is not among the given sources; the spec's §7
taxonomy (`OpenError`, `UnpackError`, `ThumbnailError`, `ProcessError`,
`MaterializeError`) maps each non-zero engine status at a given call site
to the typed error of that stage, carrying the status. -/
inductive Error where
  | openError (status : Int)
  | unpackError (status : Int)
  | thumbnailError (status : Int)
  | processError (status : Int)
  | materializeError (status : Int)
deriving DecidableEq, Repr

/-- The `libraw_thumbnail_t` field of `libraw_data_t` read by
`extract_thumbs`: format tag, geometry, color count, byte length, and the
bytes behind the `thumb` pointer (as a memory function). -/
structure ThumbRecord where
  tformat : Int
  twidth : Nat
  theight : Nat
  tcolors : Nat
  tlength : Nat
  thumbMem : Nat → Nat

/-- The fields of `libraw_data_t` that `raw.rs` reads or writes, together
with the black-box responses of the engine calls (statuses and the data
the engine would deposit).  Text fields are byte buffers; `f32` fields are
carried as opaque bit patterns (no claim computes with them). -/
structure LibrawData where
  sizes_width : Nat
  sizes_height : Nat
  sizes_raw_width : Nat
  sizes_raw_height : Nat
  idata_colors : Int
  idata_make : List Nat
  idata_model : List Nat
  idata_normalized_make : List Nat
  idata_normalized_model : List Nat
  idata_software : List Nat
  idata_cdesc : List Nat
  idata_raw_count : Nat
  idata_dng_version : Nat
  other_iso_speed : Nat
  other_shutter : Nat
  other_aperture : Nat
  other_focal_len : Nat
  other_timestamp : Int
  other_parsed_gps : Nat
  other_artist : List Nat
  other_desc : List Nat
  rawdata_raw_image : Nat → Nat
  rawdata_iparams_filters : Nat
  rawparams_use_rawspeed : Int
  rawparams_max_raw_memory_mb : Int
  params_output_bps : Int
  lens : Nat
  thumbs_list_thumbcount : Int
  thumbnail : ThumbRecord
  open_status : Int
  unpack_status : Int
  thumb_status : Nat → Int
  thumb_after : Nat → ThumbRecord
  dcraw_process_status : Int
  make_mem_status : Int
  mem_image : Nat

/-- Engine calls the wrapper can make, as recorded in event traces.
`initCall` is `libraw_init` (allocates the engine resource), `closeCall`
is `libraw_close` (releases it); the rest mirror the libraw entry points
used by `raw.rs`. -/
inductive EngineEvent where
  | initCall
  | openBufferCall (status : Int)
  | unpackCall (status : Int)
  | setOutputBps (d : Int)
  | runPipeline (status : Int)
  | makeMemImage (status : Int)
  | fromRaw
  | closeCall
deriving DecidableEq, Repr

/-- Translated from `RawImage::open`: `libraw_init(0)` allocates the
engine state, then `Error::check(libraw_open_buffer(..))?` returns early
with the error on a non-zero status; only on success is the `RawImage`
handle constructed around the allocated state.  The trace records the
engine calls the function performs; note that no `closeCall` is emitted on
the early-error path (the source has no cleanup before the `?` return). -/
def RawImage.openImage (st : LibrawData) : Except Error LibrawData × List EngineEvent :=
  if st.open_status = 0 then
    (.ok st, [.initCall, .openBufferCall 0])
  else
    (.error (.openError st.open_status), [.initCall, .openBufferCall st.open_status])

/-- Translated from `impl Drop for RawImage`: destruction performs exactly
one `libraw_close` on the stored pointer. -/
def RawImage.dropEvents : List EngineEvent := [.closeCall]

/-- The engine calls of a whole `open` attempt: the calls `open` makes,
followed — when and only when a handle was produced — by the calls its
eventual destruction makes.  A failed `open` yields no handle, so nothing
further ever runs for that attempt. -/
def openAttemptEvents (st : LibrawData) : List EngineEvent :=
  match RawImage.openImage st with
  | (.ok _, evs) => evs ++ RawImage.dropEvents
  | (.error _, evs) => evs

/-- Translated from `RawImage::unpack`: writes
`rawparams.use_rawspeed = 1` and `rawparams.max_raw_memory_mb = 1024`,
then checks `libraw_unpack`.  Returns the possibly-mutated state with the
check result. -/
def RawImage.unpack (st : LibrawData) : Except Error Unit × LibrawData × List EngineEvent :=
  let st1 := { st with rawparams_use_rawspeed := 1, rawparams_max_raw_memory_mb := 1024 }
  if st1.unpack_status = 0 then
    (.ok (), st1, [.unpackCall 0])
  else
    (.error (.unpackError st1.unpack_status), st1, [.unpackCall st1.unpack_status])

/-! ### chrono timestamp conversion (`datetime`) -/

/-- Lower bound of chrono's representable `DateTime` range, as a Unix
timestamp (`DateTime::<Utc>::MIN_UTC`). -/
def chronoTsMin : Int := -8334601228800

/-- Upper bound of chrono's representable `DateTime` range, as a Unix
timestamp (`DateTime::<Utc>::MAX_UTC`). -/
def chronoTsMax : Int := 8210266876799

/-- Models chrono's `Local.timestamp_opt(ts, 0).single()`: a timestamp is
an instant (seconds since the Unix epoch); every in-range instant —
including 0 — converts to exactly one local datetime, represented here by
its timestamp; an out-of-range instant yields `none`.  No input panics. -/
def timestampOptSingle (ts : Int) : Option Int :=
  if chronoTsMin ≤ ts ∧ ts ≤ chronoTsMax then some ts else none

/-- Translated from `RawImage::datetime`: reads `other.timestamp` and
converts it with `Local.timestamp_opt(ts, 0).single()`. -/
def RawImage.datetime (st : LibrawData) : Option Int :=
  timestampOptSingle st.other_timestamp

/-! ### Text normalization: `CStr::from_ptr` + `to_string_lossy` + `trim` -/

/-- Models `CStr::from_ptr` on a fixed-size native byte buffer: the bytes
up to (excluding) the first NUL. -/
def cstrBytes (buf : List Nat) : List Nat := buf.takeWhile (· != 0)

/-- A UTF-8 continuation byte (`0x80 ..= 0xBF`). -/
def isCont (b : Nat) : Bool := decide (0x80 ≤ b ∧ b ≤ 0xBF)

/-- Valid second byte of a three-byte UTF-8 sequence led by `b` (the
restricted ranges exclude overlong encodings and surrogates). -/
def utf8Second3 (b c : Nat) : Bool :=
  if b = 0xE0 then decide (0xA0 ≤ c ∧ c ≤ 0xBF)
  else if b = 0xED then decide (0x80 ≤ c ∧ c ≤ 0x9F)
  else isCont c

/-- Valid second byte of a four-byte UTF-8 sequence led by `b` (the
restricted ranges exclude overlong encodings and values above U+10FFFF). -/
def utf8Second4 (b c : Nat) : Bool :=
  if b = 0xF0 then decide (0x90 ≤ c ∧ c ≤ 0xBF)
  else if b = 0xF4 then decide (0x80 ≤ c ∧ c ≤ 0x8F)
  else isCont c

/-- One step of lossy UTF-8 decoding on lead byte `b` with remaining
bytes `l`: the code point produced for the maximal subpart starting at
`b` (U+FFFD when that subpart is invalid or truncated) together with the
bytes left to decode. -/
def utf8Step (b : Nat) (l : List Nat) : Nat × List Nat :=
  if b ≤ 0x7F then (b, l)
  else if 0xC2 ≤ b ∧ b ≤ 0xDF then
    match l with
    | [] => (0xFFFD, [])
    | c :: l2 =>
      if isCont c then ((b - 0xC0) * 64 + (c - 0x80), l2)
      else (0xFFFD, c :: l2)
  else if 0xE0 ≤ b ∧ b ≤ 0xEF then
    match l with
    | [] => (0xFFFD, [])
    | c :: l2 =>
      if utf8Second3 b c then
        match l2 with
        | [] => (0xFFFD, [])
        | d :: l3 =>
          if isCont d then ((b - 0xE0) * 4096 + (c - 0x80) * 64 + (d - 0x80), l3)
          else (0xFFFD, d :: l3)
      else (0xFFFD, c :: l2)
  else if 0xF0 ≤ b ∧ b ≤ 0xF4 then
    match l with
    | [] => (0xFFFD, [])
    | c :: l2 =>
      if utf8Second4 b c then
        match l2 with
        | [] => (0xFFFD, [])
        | d :: l3 =>
          if isCont d then
            match l3 with
            | [] => (0xFFFD, [])
            | e :: l4 =>
              if isCont e then
                ((b - 0xF0) * 262144 + (c - 0x80) * 4096 + (d - 0x80) * 64 + (e - 0x80), l4)
              else (0xFFFD, e :: l4)
          else (0xFFFD, d :: l3)
      else (0xFFFD, c :: l2)
  else (0xFFFD, l)

/-- Fuel-driven iteration of `utf8Step`; every step consumes at least
the lead byte, so fuel equal to the byte count never runs out. -/
def utf8LossyGo : Nat → List Nat → List Nat
  | 0, _ => []
  | _ + 1, [] => []
  | fuel + 1, b :: l =>
    (utf8Step b l).1 :: utf8LossyGo fuel (utf8Step b l).2

/-- Models Rust's `to_string_lossy` (`String::from_utf8_lossy`): decodes
UTF-8, substituting U+FFFD for each maximal invalid subpart, and never
fails — every byte list yields a code-point list.  The result is the
decoded text as code points. -/
def utf8Lossy (bs : List Nat) : List Nat := utf8LossyGo bs.length bs

/-- The Unicode `White_Space` code points removed by Rust's `str::trim`. -/
def isWsCp (c : Nat) : Bool :=
  decide (c = 0x20 ∨ (0x9 ≤ c ∧ c ≤ 0xD) ∨ c = 0x85 ∨ c = 0xA0 ∨ c = 0x1680 ∨
    (0x2000 ≤ c ∧ c ≤ 0x200A) ∨ c = 0x2028 ∨ c = 0x2029 ∨ c = 0x202F ∨ c = 0x205F ∨
    c = 0x3000)

/-- Models Rust's `str::trim`: removes leading and trailing whitespace
code points. -/
def trimWs (l : List Nat) : List Nat :=
  ((l.dropWhile isWsCp).reverse.dropWhile isWsCp).reverse

/-! ### Metadata accessors and `full_info` -/

/-- Translated from `RawImage::width`. -/
def RawImage.width (st : LibrawData) : Nat := st.sizes_width

/-- Translated from `RawImage::height`. -/
def RawImage.height (st : LibrawData) : Nat := st.sizes_height

/-- Translated from `RawImage::pixels`. -/
def RawImage.pixels (st : LibrawData) : Nat := RawImage.width st * RawImage.height st

/-- Translated from `RawImage::colors`. -/
def RawImage.colors (st : LibrawData) : Int := st.idata_colors

/-- Translated from `RawImage::iso_speed`. -/
def RawImage.iso_speed (st : LibrawData) : Nat := st.other_iso_speed

/-- Translated from `RawImage::shutter` (an `f32` carried as an opaque
bit pattern; the accessor passes it through). -/
def RawImage.shutter (st : LibrawData) : Nat := st.other_shutter

/-- Translated from `RawImage::aperture` (opaque `f32` pass-through). -/
def RawImage.aperture (st : LibrawData) : Nat := st.other_aperture

/-- Translated from `RawImage::focal_len` (opaque `f32` pass-through). -/
def RawImage.focal_len (st : LibrawData) : Nat := st.other_focal_len

/-- Translated from `RawImage::gps`: `parsed_gps.into()`, carried as an
opaque value (`GpsInfo`'s own fields are outside the given sources). -/
def RawImage.gps (st : LibrawData) : Nat := st.other_parsed_gps

/-- Translated from `RawImage::artist`: C-string read then lossy decode. -/
def RawImage.artist (st : LibrawData) : List Nat := utf8Lossy (cstrBytes st.other_artist)

/-- Translated from `RawImage::desc`: C-string read then lossy decode
(no trimming here; `full_info` trims). -/
def RawImage.desc (st : LibrawData) : List Nat := utf8Lossy (cstrBytes st.other_desc)

/-- Translated from `RawImage::make`. -/
def RawImage.make (st : LibrawData) : List Nat := utf8Lossy (cstrBytes st.idata_make)

/-- Translated from `RawImage::model`. -/
def RawImage.model (st : LibrawData) : List Nat := utf8Lossy (cstrBytes st.idata_model)

/-- Translated from `RawImage::normalized_make`. -/
def RawImage.normalized_make (st : LibrawData) : List Nat :=
  utf8Lossy (cstrBytes st.idata_normalized_make)

/-- Translated from `RawImage::normalized_model`. -/
def RawImage.normalized_model (st : LibrawData) : List Nat :=
  utf8Lossy (cstrBytes st.idata_normalized_model)

/-- Translated from `RawImage::software`. -/
def RawImage.software (st : LibrawData) : List Nat := utf8Lossy (cstrBytes st.idata_software)

/-- Translated from `RawImage::raw_count`. -/
def RawImage.raw_count (st : LibrawData) : Nat := st.idata_raw_count

/-- Translated from `RawImage::dng_version`. -/
def RawImage.dng_version (st : LibrawData) : Nat := st.idata_dng_version

/-- Translated from `RawImage::lens_info`: `(&lens).into()`, carried as
an opaque value (`LensInfo`'s own fields are outside the given sources). -/
def RawImage.lens_info (st : LibrawData) : Nat := st.lens

/-- Translated from `RawImage::filters`. -/
def RawImage.filters (st : LibrawData) : Nat := st.rawdata_iparams_filters

/-- Translated from `RawImage::channel_description`. -/
def RawImage.channel_description (st : LibrawData) : List Nat :=
  utf8Lossy (cstrBytes st.idata_cdesc)

/-- The aggregated metadata snapshot, translated from `FullRawInfo`. -/
structure FullRawInfo where
  width : Nat
  height : Nat
  colors : Int
  iso_speed : Nat
  shutter : Nat
  aperture : Nat
  focal_len : Nat
  datetime : Option Int
  gps : Nat
  artist : List Nat
  desc : List Nat
  make : List Nat
  model : List Nat
  normalized_make : List Nat
  normalized_model : List Nat
  software : List Nat
  raw_count : Nat
  dng_version : Nat
  lens_info : Nat
deriving DecidableEq, Repr

/-- Translated from `RawImage::full_info`: every field comes from the
corresponding accessor; `desc` — and only `desc` — additionally passes
through `trim`. -/
def RawImage.full_info (st : LibrawData) : FullRawInfo :=
  { width := RawImage.width st
    height := RawImage.height st
    colors := RawImage.colors st
    iso_speed := RawImage.iso_speed st
    shutter := RawImage.shutter st
    aperture := RawImage.aperture st
    focal_len := RawImage.focal_len st
    datetime := RawImage.datetime st
    gps := RawImage.gps st
    artist := RawImage.artist st
    desc := trimWs (RawImage.desc st)
    make := RawImage.make st
    model := RawImage.model st
    normalized_make := RawImage.normalized_make st
    normalized_model := RawImage.normalized_model st
    software := RawImage.software st
    raw_count := RawImage.raw_count st
    dng_version := RawImage.dng_version st
    lens_info := RawImage.lens_info st }

/-! ### Thread-safety markers -/

/-- Translated from `unsafe impl Send for RawImage {}`: the handle may be
moved to another thread. -/
def rawImageSendImpl : Bool := true

/-- Translated from `unsafe impl Sync for RawImage {}`: shared references
to one handle may be used from several threads at once. -/
def rawImageSyncImpl : Bool := true

/-- Receiver kind of a Rust method: `&self` or `&mut self`. -/
inductive Receiver where
  | sharedRef
  | exclusiveRef
deriving DecidableEq, Repr

/-- The `RawImage` methods relevant to the concurrency contract. -/
inductive HandleMethod where
  | unpackM
  | extractThumbsM
  | processM
  | widthM
  | datetimeM
  | rawImageM
  | fullInfoM
deriving DecidableEq, Repr

/-- Receiver of each `RawImage` method, translated from the Rust
signatures: `unpack`, `extract_thumbs` and `process` take `&mut self`,
the accessors take `&self`. -/
def methodReceiver : HandleMethod → Receiver
  | .unpackM => .exclusiveRef
  | .extractThumbsM => .exclusiveRef
  | .processM => .exclusiveRef
  | .widthM => .sharedRef
  | .datetimeM => .sharedRef
  | .rawImageM => .sharedRef
  | .fullInfoM => .sharedRef

/-! ### `raw_image` and `process` -/

/-- Translated from `RawImage::raw_image`: reads the `rawdata.raw_image`
pointer and the engine-reported raw geometry, and builds a slice of
exactly `raw_width * raw_height` elements over the engine memory behind
the pointer — with no check of any lifecycle stage. -/
def RawImage.raw_image (st : LibrawData) : List Nat :=
  (List.range (st.sizes_raw_width * st.sizes_raw_height)).map st.rawdata_raw_image

/-- The processed image wrapper produced by `process`.  Modelled from the
spec: `processed.rs` is not among the given sources; `ProcessedImage<D>`
wraps the engine-allocated buffer returned by
`libraw_dcraw_make_mem_image` together with its const bit-depth
parameter. -/
structure ProcessedImage where
  d : Nat
  mem_ptr : Nat
deriving DecidableEq, Repr

/-- Outcome of a call to `process::<D>`: a `debug_assert!` failure
(panic, debug builds only), a typed error, or a processed image. -/
inductive ProcOutcome where
  | panicked
  | failure (e : Error)
  | success (img : ProcessedImage)
deriving DecidableEq, Repr

/-- Translated from `RawImage::process::<D>`.  The first statement is
`debug_assert!(D == 8 || D == 16)`: with debug assertions enabled
(`dbg = true`) an out-of-range `D` panics before anything else runs; with
them disabled the macro expands to nothing.  Then `params.output_bps` is
set to `D`, `libraw_dcraw_process` is checked (`?`), then
`libraw_dcraw_make_mem_image`'s out-status is checked (`?`), and only
then is the returned buffer wrapped by `ProcessedImage::from_raw`.  The
result carries the outcome, the engine-call trace, and the final state. -/
def RawImage.process (dbg : Bool) (D : Nat) (st : LibrawData) :
    ProcOutcome × List EngineEvent × LibrawData :=
  if dbg ∧ ¬ (D = 8 ∨ D = 16) then
    (.panicked, [], st)
  else
    let st1 := { st with params_output_bps := (D : Int) }
    if st1.dcraw_process_status ≠ 0 then
      (.failure (.processError st1.dcraw_process_status),
       [.setOutputBps (D : Int), .runPipeline st1.dcraw_process_status], st1)
    else if st1.make_mem_status ≠ 0 then
      (.failure (.materializeError st1.make_mem_status),
       [.setOutputBps (D : Int), .runPipeline 0, .makeMemImage st1.make_mem_status], st1)
    else
      (.success { d := D, mem_ptr := st1.mem_image },
       [.setOutputBps (D : Int), .runPipeline 0, .makeMemImage 0, .fromRaw], st1)

/-! ### Thumbnail extraction -/

/-- An owned thumbnail: format tag, geometry, color count, and a copy of
the engine's thumbnail bytes. -/
structure ThumbnailImage where
  format : Int
  width : Nat
  height : Nat
  colors : Nat
  data : List Nat
deriving DecidableEq, Repr

/-- The `ThumbnailImage` built by the loop body of `extract_thumbs` from
the engine's `thumbnail` field: the fields are copied and the bytes
behind the `thumb` pointer are copied out (`to_vec`) up to `tlength`. -/
def mkThumbnailImage (r : ThumbRecord) : ThumbnailImage :=
  { format := r.tformat, width := r.twidth, height := r.theight,
    colors := r.tcolors,
    data := (List.range r.tlength).map r.thumbMem }

/-- Engine effect of `libraw_unpack_thumb_ex(raw_data, i)`: returns the
status for index `i` and, on success, deposits the decoded thumbnail of
index `i` in the `thumbnail` field. -/
def unpackThumbEx (st : LibrawData) (i : Nat) : Int × LibrawData :=
  (st.thumb_status i,
    if st.thumb_status i = 0 then { st with thumbnail := st.thumb_after i } else st)

/-- The loop of `extract_thumbs` over the remaining indices: each
iteration checks `libraw_unpack_thumb_ex` (`?` returns the
`ThumbnailError` at the first non-zero status, discarding `thumbs`), then
appends the owned copy of the engine's `thumbnail` field.  The
accumulator is the `Thumbnails` collection, modelled from the spec as an
append-only owned sequence (`thumbnails.rs` is not among the given
sources). -/
def extractLoop (st : LibrawData) (acc : List ThumbnailImage) :
    List Nat → Except Error (List ThumbnailImage)
  | [] => .ok acc
  | i :: rest =>
    let r := unpackThumbEx st i
    if r.1 = 0 then
      extractLoop r.2 (acc ++ [mkThumbnailImage r.2.thumbnail]) rest
    else .error (.thumbnailError r.1)

/-- Translated from `RawImage::extract_thumbs`: iterates `i` over
`0 .. thumbs_list.thumbcount` (an `i32`; a non-positive count yields no
iterations), aborting at the first failing index, and returns the
collected owned thumbnails. -/
def RawImage.extract_thumbs (st : LibrawData) : Except Error (List ThumbnailImage) :=
  extractLoop st [] (List.range st.thumbs_list_thumbcount.toNat)

/-! ### Concrete engine states used as evaluation points -/

/-- An all-zero thumbnail record. -/
def zeroThumb : ThumbRecord :=
  { tformat := 0, twidth := 0, theight := 0, tcolors := 0, tlength := 0,
    thumbMem := fun _ => 0 }

/-- A base engine state: every field zeroed, every engine call succeeding. -/
def baseEng : LibrawData :=
  { sizes_width := 0, sizes_height := 0, sizes_raw_width := 0, sizes_raw_height := 0,
    idata_colors := 0, idata_make := [], idata_model := [],
    idata_normalized_make := [], idata_normalized_model := [],
    idata_software := [], idata_cdesc := [], idata_raw_count := 0,
    idata_dng_version := 0, other_iso_speed := 0, other_shutter := 0,
    other_aperture := 0, other_focal_len := 0, other_timestamp := 0,
    other_parsed_gps := 0, other_artist := [], other_desc := [],
    rawdata_raw_image := fun _ => 0, rawdata_iparams_filters := 0,
    rawparams_use_rawspeed := 0, rawparams_max_raw_memory_mb := 0,
    params_output_bps := 0, lens := 0, thumbs_list_thumbcount := 0,
    thumbnail := zeroThumb, open_status := 0, unpack_status := 0,
    thumb_status := fun _ => 0, thumb_after := fun _ => zeroThumb,
    dcraw_process_status := 0, make_mem_status := 0, mem_image := 0 }

/-- An engine state on which `libraw_open_buffer` fails with status −2
(the buffer is not a decodable raw container). -/
def failOpenEng : LibrawData := { baseEng with open_status := -2 }

/-- An engine state on which `libraw_dcraw_process` fails with status −4. -/
def procFailEng : LibrawData := { baseEng with dcraw_process_status := -4 }

/-- An unpacked-state engine with a 3 × 2 raw frame whose pixel at offset
`k` is `k + 10`. -/
def rawEng : LibrawData :=
  { baseEng with
    sizes_raw_width := 3
    sizes_raw_height := 2
    rawdata_raw_image := fun k => k + 10 }

/-- An engine reporting three thumbnails, where index 0 decodes and every
later index fails with status −6. -/
def thumbFailEng : LibrawData :=
  { baseEng with
    thumbs_list_thumbcount := 3
    thumb_status := fun j => if j = 0 then 0 else -6 }

/-- An engine reporting two thumbnails, both decoding successfully, whose
decoded thumbnail at index `i` is a `(2 + i) × 2`, 3-color image of two
bytes `50, 51`. -/
def thumbsOkEng : LibrawData :=
  { baseEng with
    thumbs_list_thumbcount := 2
    thumb_after := fun i =>
      { tformat := 1, twidth := 2 + i, theight := 2, tcolors := 3,
        tlength := 2, thumbMem := fun k => 50 + k } }

/-- An engine state whose description buffer holds `" A<0xFF> \0B"`: a
leading space, `A`, an invalid byte, a trailing space, then the NUL
terminator (the `B` lies beyond it). -/
def textEng : LibrawData :=
  { baseEng with other_desc := [0x20, 0x41, 0xFF, 0x20, 0x00, 0x42] }

/-! ### C1, C3, C4 -/

/-- C1: the claim says every exit path of `open` releases the engine
resource.  Evaluating the code at a buffer `libraw_open_buffer` rejects:
`open` returns the error, the attempt's full event trace contains the
`libraw_init` allocation but no `libraw_close` — the engine state
allocated for the failed attempt is leaked (no handle exists whose
destruction could ever release it). -/
theorem c1_open_failure_leaks :
    (RawImage.openImage failOpenEng).1 = .error (.openError (-2)) ∧
    openAttemptEvents failOpenEng = [.initCall, .openBufferCall (-2)] ∧
    (openAttemptEvents failOpenEng).count .initCall = 1 ∧
    (openAttemptEvents failOpenEng).count .closeCall = 0 := by
  refine ⟨rfl, rfl, ?_, ?_⟩ <;> rfl

/-- C3 counterexample: the claim says a zero capture timestamp yields the
absent result.  On the state whose engine-reported timestamp is 0 (the
`baseEng` state), `datetime` returns `some` of the epoch — the
default-epoch value is treated as a valid timestamp, not absent. -/
theorem c3_zero_epoch_counterexample :
    RawImage.datetime baseEng = some 0 ∧ RawImage.datetime baseEng ≠ none := by
  constructor
  · rfl
  · intro h
    simp [RawImage.datetime, timestampOptSingle, baseEng, chronoTsMin, chronoTsMax] at h

/-- C3 amended: `datetime` never panics and never errors; an out-of-range
epoch yields `none`; every in-range epoch — zero included — is interpreted
as epoch seconds in the local timezone and yields `some`. -/
theorem c3_datetime_in_range_some_out_of_range_none (st : LibrawData) :
    (chronoTsMin ≤ st.other_timestamp ∧ st.other_timestamp ≤ chronoTsMax →
      RawImage.datetime st = some st.other_timestamp) ∧
    (¬ (chronoTsMin ≤ st.other_timestamp ∧ st.other_timestamp ≤ chronoTsMax) →
      RawImage.datetime st = none) := by
  constructor <;> intro h <;> simp [RawImage.datetime, timestampOptSingle, h]

/-- C3 witness: at the zero-timestamp state the in-range branch of the
amended theorem applies and returns `some 0`. -/
theorem c3_witness : RawImage.datetime baseEng = some 0 :=
  (c3_datetime_in_range_some_out_of_range_none baseEng).1 (by decide)

/-- C4 counterexample: the claim says the implementation does not grant
unrestricted concurrent sharing of one handle (movable across threads,
but not `Sync`).  The source declares `unsafe impl Sync for RawImage`,
so the conjunction "Send and not Sync" is false of the code. -/
theorem c4_sync_counterexample :
    ¬ (rawImageSendImpl = true ∧ rawImageSyncImpl = false) := by
  decide

/-- C4 amended: `RawImage` is declared both `Send` and `Sync`: the handle
may be moved across threads, and shared references to it may be used
concurrently from several threads with no external lock; only the
mutating operations (`unpack`, `extract_thumbs`, `process`) require an
exclusive `&mut` receiver, so it is Rust's aliasing rules — not a
declared not-`Sync` contract — that keep mutation exclusive, while the
`&self` accessors are concurrently callable. -/
theorem c4_send_and_sync_markers :
    rawImageSendImpl = true ∧ rawImageSyncImpl = true ∧
    methodReceiver .unpackM = .exclusiveRef ∧
    methodReceiver .extractThumbsM = .exclusiveRef ∧
    methodReceiver .processM = .exclusiveRef ∧
    methodReceiver .widthM = .sharedRef ∧
    methodReceiver .rawImageM = .sharedRef := by
  decide

/-! ### C5, C6 -/

/-- If every index in the remaining list decodes successfully, the loop
appends one owned copy per index, in list order. -/
theorem extractLoop_all_ok (l : List Nat) :
    ∀ (st : LibrawData) (acc : List ThumbnailImage),
      (∀ i ∈ l, st.thumb_status i = 0) →
      extractLoop st acc l =
        .ok (acc ++ l.map (fun i => mkThumbnailImage (st.thumb_after i))) := by
  induction l with
  | nil => intro st acc _; simp [extractLoop]
  | cons i rest ih =>
    intro st acc h
    have hi : st.thumb_status i = 0 := h i (List.mem_cons_self i rest)
    have hrest : ∀ j ∈ rest, st.thumb_status j = 0 :=
      fun j hj => h j (List.mem_cons_of_mem i hj)
    simp only [extractLoop, unpackThumbEx, hi, if_pos]
    rw [ih { st with thumbnail := st.thumb_after i }
      (acc ++ [mkThumbnailImage (st.thumb_after i)]) hrest]
    simp

/-- The loop aborts with the `ThumbnailError` of the first failing index,
discarding the accumulator. -/
theorem extractLoop_first_failure (l1 : List Nat) :
    ∀ (st : LibrawData) (acc : List ThumbnailImage) (i : Nat) (l2 : List Nat),
      (∀ j ∈ l1, st.thumb_status j = 0) → st.thumb_status i ≠ 0 →
      extractLoop st acc (l1 ++ i :: l2) =
        .error (.thumbnailError (st.thumb_status i)) := by
  induction l1 with
  | nil =>
    intro st acc i l2 _ hi
    simp [extractLoop, unpackThumbEx, hi]
  | cons j rest ih =>
    intro st acc i l2 h hi
    have hj : st.thumb_status j = 0 := h j (List.mem_cons_self j rest)
    have hrest : ∀ k ∈ rest, st.thumb_status k = 0 :=
      fun k hk => h k (List.mem_cons_of_mem j hk)
    simp only [List.cons_append, extractLoop, unpackThumbEx, hj, if_pos]
    exact ih _ _ i l2 hrest hi

/-- C5: if the engine reports a failing status at the first failing index
`i` (all earlier indices succeed), `extract_thumbs` fails the whole
operation with the `ThumbnailError` of that status — the error result
carries no thumbnails, so every already-extracted one is discarded. -/
theorem c5_first_failure_aborts (st : LibrawData) (i : Nat)
    (hlt : i < st.thumbs_list_thumbcount.toNat)
    (hfail : st.thumb_status i ≠ 0)
    (hbefore : ∀ j, j < i → st.thumb_status j = 0) :
    RawImage.extract_thumbs st = .error (.thumbnailError (st.thumb_status i)) := by
  have hsplit : List.range st.thumbs_list_thumbcount.toNat =
      List.range' 0 i ++ i :: List.range' (i + 1) (st.thumbs_list_thumbcount.toNat - i - 1) := by
    have h1 := List.range'_append 0 i (st.thumbs_list_thumbcount.toNat - i) 1
    have h2 : (st.thumbs_list_thumbcount.toNat - i) + i = st.thumbs_list_thumbcount.toNat := by
      omega
    have h3 : 0 + 1 * i = i := by omega
    rw [h2, h3] at h1
    rw [List.range_eq_range', ← h1]
    congr 1
    have h4 : st.thumbs_list_thumbcount.toNat - i =
        (st.thumbs_list_thumbcount.toNat - i - 1) + 1 := by omega
    rw [h4]
    simp [List.range']
  rw [RawImage.extract_thumbs, hsplit]
  exact extractLoop_first_failure _ st [] i _
    (fun j hj => hbefore j (by
      have := List.mem_range'_1.mp hj
      omega)) hfail

/-- C5 witness: on an engine reporting three thumbnails where index 0
decodes and index 1 fails with status −6, the whole extraction fails with
that `ThumbnailError` and no thumbnail is returned. -/
theorem c5_witness :
    RawImage.extract_thumbs thumbFailEng = .error (.thumbnailError (-6)) :=
  c5_first_failure_aborts thumbFailEng 1 (by decide) (by decide)
    (fun j hj => by
      have hj0 : j = 0 := Nat.lt_one_iff.mp hj
      subst hj0
      rfl)

/-- C6: when every per-index decode succeeds, `extract_thumbs` returns
one owned `ThumbnailImage` per engine-reported index, in index order —
the copy of the engine's thumbnail buffer for that index — with length
equal to the engine-reported thumbnail count; nothing is deduplicated or
filtered. -/
theorem c6_all_success_in_order (st : LibrawData)
    (hcnt : 0 ≤ st.thumbs_list_thumbcount)
    (hall : ∀ i, i < st.thumbs_list_thumbcount.toNat → st.thumb_status i = 0) :
    RawImage.extract_thumbs st =
      .ok ((List.range st.thumbs_list_thumbcount.toNat).map
        (fun i => mkThumbnailImage (st.thumb_after i))) ∧
    ((List.range st.thumbs_list_thumbcount.toNat).map
        (fun i => mkThumbnailImage (st.thumb_after i))).length =
      st.thumbs_list_thumbcount.toNat ∧
    (st.thumbs_list_thumbcount.toNat : Int) = st.thumbs_list_thumbcount := by
  refine ⟨?_, by simp, Int.toNat_of_nonneg hcnt⟩
  rw [RawImage.extract_thumbs]
  rw [extractLoop_all_ok _ st [] (fun i hi => hall i (List.mem_range.mp hi))]
  simp

/-- C6 witness: a two-thumbnail engine on which extraction succeeds and
returns the two owned copies in index order. -/
theorem c6_witness :
    RawImage.extract_thumbs thumbsOkEng =
      .ok ((List.range thumbsOkEng.thumbs_list_thumbcount.toNat).map
        (fun i => mkThumbnailImage (thumbsOkEng.thumb_after i))) ∧
    RawImage.extract_thumbs thumbsOkEng =
      .ok [{ format := 1, width := 2, height := 2, colors := 3, data := [50, 51] },
           { format := 1, width := 3, height := 2, colors := 3, data := [50, 51] }] :=
  ⟨(c6_all_success_in_order thumbsOkEng (by decide) (fun i _ => rfl)).1, by rfl⟩

/-! ### C2, C8, C9, C10 -/

/-- C2 counterexample: the claim says a bit depth other than 8 or 16 is
rejected with a contract-violation error before any engine call.  At
`D = 12` with debug assertions disabled (release build), the call is not
rejected: the bit depth is written to `params.output_bps`, the develop
pipeline is invoked and the call even succeeds; with debug assertions
enabled the guard is a panic, not an error. -/
theorem c2_counterexample :
    (RawImage.process false 12 baseEng).1 = .success { d := 12, mem_ptr := 0 } ∧
    (RawImage.process false 12 baseEng).2.2.params_output_bps = 12 ∧
    EngineEvent.runPipeline 0 ∈ (RawImage.process false 12 baseEng).2.1 ∧
    (RawImage.process true 12 baseEng).1 = .panicked := by
  refine ⟨rfl, rfl, ?_, rfl⟩
  decide

/-- C2 amended: `process::<D>` for `D ∉ {8, 16}` is guarded only by
`debug_assert!`: with debug assertions enabled the call panics before the
bit depth is written or the engine invoked; with them disabled (release)
no rejection happens — `D` is written to `params.output_bps` and the
develop pipeline is invoked with it. -/
theorem c2_debug_assert_only (st : LibrawData) (D : Nat) (h : ¬ (D = 8 ∨ D = 16)) :
    RawImage.process true D st = (.panicked, [], st) ∧
    (RawImage.process false D st).2.1[0]? = some (.setOutputBps (D : Int)) ∧
    (RawImage.process false D st).2.1[1]? = some (.runPipeline st.dcraw_process_status) ∧
    (RawImage.process false D st).2.2.params_output_bps = (D : Int) := by
  refine ⟨by simp [RawImage.process, h], ?_, ?_, ?_⟩ <;>
    · simp only [RawImage.process]
      split_ifs <;> simp_all

/-- C2 witness: the amended theorem applied at `D = 12` on the all-zero
engine state. -/
theorem c2_witness :
    RawImage.process true 12 baseEng = (.panicked, [], baseEng) ∧
    (RawImage.process false 12 baseEng).2.1[0]? = some (.setOutputBps 12) ∧
    (RawImage.process false 12 baseEng).2.1[1]? = some (.runPipeline 0) ∧
    (RawImage.process false 12 baseEng).2.2.params_output_bps = 12 :=
  c2_debug_assert_only baseEng 12 (by decide)

/-- C8: for a legal bit depth, `process` first sets `output_bps` to `D`
and then invokes the develop pipeline; a failing pipeline status yields
`ProcessError` with no further engine call (no materialization, no read
of the image buffer); a failing materialization status yields
`MaterializeError` with no read of the buffer; only when both statuses
succeed is the buffer wrapped (`fromRaw`). -/
theorem c8_process_stage_order (st : LibrawData) (D : Nat) (dbg : Bool)
    (hD : D = 8 ∨ D = 16) :
    (RawImage.process dbg D st).2.1[0]? = some (.setOutputBps (D : Int)) ∧
    (RawImage.process dbg D st).2.1[1]? = some (.runPipeline st.dcraw_process_status) ∧
    (st.dcraw_process_status ≠ 0 →
      (RawImage.process dbg D st).1 = .failure (.processError st.dcraw_process_status) ∧
      (RawImage.process dbg D st).2.1 =
        [.setOutputBps (D : Int), .runPipeline st.dcraw_process_status]) ∧
    (st.dcraw_process_status = 0 → st.make_mem_status ≠ 0 →
      (RawImage.process dbg D st).1 = .failure (.materializeError st.make_mem_status) ∧
      (RawImage.process dbg D st).2.1 =
        [.setOutputBps (D : Int), .runPipeline 0, .makeMemImage st.make_mem_status]) ∧
    (st.dcraw_process_status = 0 → st.make_mem_status = 0 →
      (RawImage.process dbg D st).1 = .success { d := D, mem_ptr := st.mem_image } ∧
      (RawImage.process dbg D st).2.1 =
        [.setOutputBps (D : Int), .runPipeline 0, .makeMemImage 0, .fromRaw]) := by
  have hguard : ¬ (dbg ∧ ¬ (D = 8 ∨ D = 16)) := by tauto
  refine ⟨?_, ?_, ?_, ?_, ?_⟩ <;>
    · simp only [RawImage.process, hguard, if_false]
      split_ifs <;> simp_all

/-- C8 witness: on an engine whose pipeline fails with status −4,
`process::<8>` reports `ProcessError` and stops after the pipeline call. -/
theorem c8_witness :
    (RawImage.process false 8 procFailEng).1 = .failure (.processError (-4)) ∧
    (RawImage.process false 8 procFailEng).2.1 =
      [.setOutputBps 8, .runPipeline (-4)] :=
  (c8_process_stage_order procFailEng 8 false (Or.inl rfl)).2.2.1 (by decide)

/-- C9: after a successful `unpack`, `raw_image` is a view of exactly
`raw_width * raw_height` elements over the engine's raw pixel memory,
element `k` being the engine value at offset `k`. -/
theorem c9_raw_view (st : LibrawData) (_hunp : st.unpack_status = 0) :
    (RawImage.raw_image st).length = st.sizes_raw_width * st.sizes_raw_height ∧
    ∀ k, k < st.sizes_raw_width * st.sizes_raw_height →
      (RawImage.raw_image st)[k]? = some (st.rawdata_raw_image k) := by
  constructor
  · simp [RawImage.raw_image]
  · intro k hk
    simp [RawImage.raw_image, hk]

/-- C9 witness: on a 3 × 2 raw frame the view has six elements and the
element at offset 4 is the engine's pixel there. -/
theorem c9_witness :
    (RawImage.raw_image rawEng).length = 6 ∧
    (RawImage.raw_image rawEng)[4]? = some 14 :=
  ⟨(c9_raw_view rawEng rfl).1,
    by simpa [rawEng] using (c9_raw_view rawEng rfl).2 4 (by decide)⟩

/-- C10: neither `raw_image` nor `process` checks any lifecycle stage:
on every engine state — in particular one on which `unpack` was never
called — `raw_image` unconditionally builds the `raw_width * raw_height`
view, `process` (release semantics) immediately writes the bit depth and
proceeds to the engine pipeline, and any error `process` returns is an
engine-status error (`ProcessError` or `MaterializeError`), never a
stage/contract rejection. -/
theorem c10_no_stage_gating (st : LibrawData) (D : Nat) :
    (RawImage.raw_image st).length = st.sizes_raw_width * st.sizes_raw_height ∧
    (RawImage.process false D st).2.1[0]? = some (.setOutputBps (D : Int)) ∧
    ∀ e, (RawImage.process false D st).1 = .failure e →
      (∃ s, e = .processError s) ∨ (∃ s, e = .materializeError s) := by
  refine ⟨by simp [RawImage.raw_image], ?_, ?_⟩
  · simp only [RawImage.process]
    split_ifs <;> simp_all
  · intro e he
    by_cases h1 : st.dcraw_process_status = 0
    · by_cases h2 : st.make_mem_status = 0
      · simp [RawImage.process, h1, h2] at he
      · simp [RawImage.process, h1, h2] at he
        first
          | exact Or.inr ⟨_, he⟩
          | exact Or.inr ⟨_, he.symm⟩
    · simp [RawImage.process, h1] at he
      first
        | exact Or.inl ⟨_, he⟩
        | exact Or.inl ⟨_, he.symm⟩

/-- C10 witness: on a never-unpacked state whose pipeline fails,
`raw_image` still yields its (empty) view, `process::<12>` still starts
with the engine calls, and the returned error is the engine-status
`ProcessError`. -/
theorem c10_witness :
    (RawImage.raw_image procFailEng).length = 0 ∧
    (RawImage.process false 12 procFailEng).2.1[0]? = some (.setOutputBps 12) ∧
    ((∃ s, Error.processError (-4) = .processError s) ∨
      (∃ s, Error.processError (-4) = .materializeError s)) :=
  ⟨(c10_no_stage_gating procFailEng 12).1, (c10_no_stage_gating procFailEng 12).2.1,
    (c10_no_stage_gating procFailEng 12).2.2 (.processError (-4)) (by decide)⟩

/-! ### C7 -/

/-- The first element surviving `dropWhile p` does not satisfy `p`. -/
theorem head?_dropWhile_not (p : Nat → Bool) (l : List Nat) :
    ∀ c, (l.dropWhile p).head? = some c → p c = false := by
  induction l with
  | nil => intro c hc; simp [List.dropWhile] at hc
  | cons a l ih =>
    intro c hc
    rw [List.dropWhile_cons] at hc
    by_cases hpa : p a
    · rw [if_pos hpa] at hc
      exact ih c hc
    · rw [if_neg hpa] at hc
      simp at hc
      subst hc
      simpa using hpa

/-- `dropWhile` only removes a prefix, so a non-empty result keeps the
last element. -/
theorem getLast?_dropWhile_of_ne_nil (p : Nat → Bool) (l : List Nat) :
    l.dropWhile p ≠ [] → (l.dropWhile p).getLast? = l.getLast? := by
  induction l with
  | nil => simp
  | cons a l ih =>
    intro hne
    rw [List.dropWhile_cons] at hne ⊢
    by_cases hpa : p a
    · rw [if_pos hpa] at hne ⊢
      rw [ih hne]
      cases l with
      | nil => simp [List.dropWhile] at hne
      | cons b m => simp
    · rw [if_neg hpa]

/-- The head of a trimmed list is not whitespace. -/
theorem trimWs_head_not_ws (l : List Nat) :
    ∀ c, (trimWs l).head? = some c → isWsCp c = false := by
  intro c hc
  rw [trimWs, List.head?_reverse] at hc
  have hne : ((l.dropWhile isWsCp).reverse.dropWhile isWsCp) ≠ [] := by
    intro h0
    rw [h0] at hc
    simp at hc
  rw [getLast?_dropWhile_of_ne_nil _ _ hne, List.getLast?_reverse] at hc
  exact head?_dropWhile_not _ _ c hc

/-- The last element of a trimmed list is not whitespace. -/
theorem trimWs_getLast_not_ws (l : List Nat) :
    ∀ c, (trimWs l).getLast? = some c → isWsCp c = false := by
  intro c hc
  rw [trimWs, List.getLast?_reverse] at hc
  exact head?_dropWhile_not _ _ c hc

/-- Each decoding step produces a Unicode scalar value: below 0x110000
and outside the surrogate block. -/
theorem utf8Step_scalar (b : Nat) (l : List Nat) :
    (utf8Step b l).1 < 0x110000 ∧
      ((utf8Step b l).1 < 0xD800 ∨ 0xE000 ≤ (utf8Step b l).1) := by
  rcases l with _ | ⟨c, _ | ⟨d, _ | ⟨e, l4⟩⟩⟩ <;>
    · simp only [utf8Step, isCont, utf8Second3, utf8Second4]
      split_ifs <;> simp_all only [decide_eq_true_eq] <;> omega

/-- The iterated decoder only emits what steps emit. -/
theorem utf8LossyGo_scalar (fuel : Nat) :
    ∀ (bs : List Nat), ∀ x ∈ utf8LossyGo fuel bs,
      x < 0x110000 ∧ (x < 0xD800 ∨ 0xE000 ≤ x) := by
  induction fuel with
  | zero => intro bs x hx; simp [utf8LossyGo] at hx
  | succ fuel ih =>
    intro bs x hx
    rcases bs with _ | ⟨b, l⟩
    · simp [utf8LossyGo] at hx
    · simp only [utf8LossyGo, List.mem_cons] at hx
      rcases hx with rfl | hx
      · exact utf8Step_scalar b l
      · exact ih _ x hx

/-- Lossy decoding never fails and only ever produces Unicode scalar
values: every output code point is below 0x110000 and outside the
surrogate block. -/
theorem utf8Lossy_scalar (bs : List Nat) :
    ∀ x ∈ utf8Lossy bs, x < 0x110000 ∧ (x < 0xD800 ∨ 0xE000 ≤ x) :=
  utf8LossyGo_scalar bs.length bs

/-- Sanity check of the decoder against Rust's `from_utf8_lossy`: an
invalid lead byte becomes one U+FFFD, a valid two-byte sequence decodes. -/
theorem utf8Lossy_eval_mixed :
    utf8Lossy [0x41, 0xFF, 0xC3, 0xA9] = [0x41, 0xFFFD, 0xE9] := by decide

/-- Sanity check of the decoder against Rust's `from_utf8_lossy`: an
encoded surrogate is three maximal invalid subparts. -/
theorem utf8Lossy_eval_surrogate :
    utf8Lossy [0xED, 0xA0, 0x80] = [0xFFFD, 0xFFFD, 0xFFFD] := by decide

/-- C7: for every byte content of the fixed-size text buffers, each text
field of `full_info` is the total lossy decoding of the bytes up to the
NUL terminator — lossy decoding always yields valid text (every emitted
code point is a Unicode scalar value, so conversion never fails) — and
the description field alone is additionally trimmed: its first and last
code points are never whitespace. -/
theorem c7_lossy_text_trimmed_desc (st : LibrawData) :
    (RawImage.full_info st).artist = utf8Lossy (cstrBytes st.other_artist) ∧
    (RawImage.full_info st).make = utf8Lossy (cstrBytes st.idata_make) ∧
    (RawImage.full_info st).model = utf8Lossy (cstrBytes st.idata_model) ∧
    (RawImage.full_info st).normalized_make =
      utf8Lossy (cstrBytes st.idata_normalized_make) ∧
    (RawImage.full_info st).normalized_model =
      utf8Lossy (cstrBytes st.idata_normalized_model) ∧
    (RawImage.full_info st).software = utf8Lossy (cstrBytes st.idata_software) ∧
    (RawImage.full_info st).desc = trimWs (utf8Lossy (cstrBytes st.other_desc)) ∧
    (∀ c, ((RawImage.full_info st).desc).head? = some c → isWsCp c = false) ∧
    (∀ c, ((RawImage.full_info st).desc).getLast? = some c → isWsCp c = false) ∧
    (∀ bs, ∀ x ∈ utf8Lossy bs, x < 0x110000 ∧ (x < 0xD800 ∨ 0xE000 ≤ x)) := by
  refine ⟨rfl, rfl, rfl, rfl, rfl, rfl, rfl, ?_, ?_, ?_⟩
  · exact fun c hc => trimWs_head_not_ws _ c hc
  · exact fun c hc => trimWs_getLast_not_ws _ c hc
  · exact fun bs => utf8Lossy_scalar bs

/-- C7 witness: on the buffer `" A<0xFF> \0B"` the description of
`full_info` is the decoded text up to the NUL with the invalid byte
replaced by U+FFFD and the surrounding spaces trimmed, and its head
(`A` = 65) is not whitespace. -/
theorem c7_witness :
    (RawImage.full_info textEng).desc = [0x41, 0xFFFD] ∧ isWsCp 0x41 = false := by
  refine ⟨by decide, ?_⟩
  exact (c7_lossy_text_trimmed_desc textEng).2.2.2.2.2.2.2.1 0x41 (by decide)

end Rsraw
